import Mathlib

/-!
Verification development for the AAVE rebalancer backend performance engine
(`src/cron/dataCollectionJob.ts`, class `PerformanceService`).

The TypeScript functions are shallowly embedded over `ℚ`.  JavaScript numbers
are idealized as exact rationals; the one place where IEEE non-finite values
matter (the unguarded fund-flow division when `totalFundSize = 0`) is embedded
separately with an `Option ℚ` codomain, `none` standing for a non-finite
double (`NaN` or `±Infinity`).

External collaborators (oracle, database, chain RPC) are modelled as explicit
inputs: the oracle result is an `Option ℚ` (`none` = oracle failure), the
utilization snapshot, fund flows and the previous day's stored total are
passed in as values, and the record handed to the persistence layer is the
function's `Option` result (`none` = nothing is stored).

`SUPPORTED_CHAINS` is imported by the source from `config/chains`, whose
table configures ethereum (elasticity 0.1), base (0.2), optimism (0.15),
arbitrum (0.12), polygon (0.18), arbitrumSepolia (0.12) and optimismSepolia
(0.15).  The optimizer reads only each chain's `elasticityFactor`, so the
configuration enters the embedding as an elasticity-factor lookup: the
repository's concrete table is `SUPPORTED_CHAINS_ELASTICITY` below, and the
general theorems quantify over an arbitrary lookup `cfg : String → Option ℚ`
(`none` = chain not configured, which the source filters out), so they hold
in particular at the concrete configuration.
-/

/-- Flow type of a fund-flow record (`flowType ∈ {deposit, withdrawal}`). -/
inductive FlowType where
  | deposit : FlowType
  | withdrawal : FlowType
deriving DecidableEq, Repr

/-- One fund-flow record, as consumed by `calculateDailyPerformance`
(provenance fields that the computation never reads are omitted). -/
structure FundFlow where
  chainName : String
  flowType : FlowType
  amount : ℚ
deriving DecidableEq, Repr

/-- One element of the utilization snapshot returned by
`aaveDataService.getUtilizationData()`, with the fields the performance
computation reads (`totalLiquidity` arrives as a string and is parsed;
we model the parsed value). -/
structure ChainData where
  chainName : String
  supplyAPY : ℚ
  utilizationRate : ℚ
  totalLiquidity : ℚ
deriving DecidableEq, Repr

/-- Working per-chain record of the optimizer (`chainMetrics` array). -/
structure ChainMetrics where
  chainName : String
  currentAPY : ℚ
  currentUtilization : ℚ
  totalLiquidity : ℚ
  elasticityFactor : ℚ
  currentAllocation : ℚ
deriving DecidableEq, Repr

/-- One element of the optimizer's result list. -/
structure AllocationResult where
  chainName : String
  allocation : ℚ
  predictedAPY : ℚ
deriving DecidableEq, Repr

/-- Per-chain row of the daily performance record (`ChainPerformanceData`);
the source field `utilizationRatio` is modelled as `utilizationRatioVal`. -/
structure ChainPerformanceData where
  chainName : String
  apyBaseline : ℚ
  apyOptimized : ℚ
  allocationBaseline : ℚ
  allocationOptimized : ℚ
  utilizationRatioVal : ℚ
  totalSupply : ℚ
deriving DecidableEq, Repr

/-- Intermediate per-chain entry used by `calculateBaselinePerformance` and
`calculateOptimizedPerformanceWithFlows` (the source field
`utilizationRatio` is modelled as `utilizationRatioVal`). -/
structure ChainEntry where
  chainName : String
  allocation : ℚ
  apy : ℚ
  utilizationRatioVal : ℚ
  totalSupply : ℚ
deriving DecidableEq, Repr

/-- The daily performance record handed to `storeDailyPerformance`
(numeric fields that the source stringifies are kept as rationals). -/
structure DailyPerformanceData where
  totalFundAllocationBaseline : ℚ
  totalFundAllocationOptimized : ℚ
  differential : ℚ
  differentialPercentage : ℚ
  totalInflows : ℚ
  totalOutflows : ℚ
  netFlow : ℚ
  previousDayTotal : ℚ
  chains : List ChainPerformanceData
deriving DecidableEq, Repr

/-- `FALLBACK_FUND_SIZE = 5000000` (the $5M fallback). -/
def FALLBACK_FUND_SIZE : ℚ := 5000000

/-- `getTotalFundSize`: the oracle pool value when the oracle call succeeds,
else the fallback.  The oracle outcome is the `Option` input. -/
def getTotalFundSize (oraclePoolValue : Option ℚ) : ℚ :=
  oraclePoolValue.getD FALLBACK_FUND_SIZE

/-- `BASELINE_ALLOCATION = { ethereum: 4000000, base: 1000000 }`, in the
source's insertion order (`Object.entries` order). -/
def BASELINE_ALLOCATION_ENTRIES : List (String × ℚ) :=
  [("ethereum", 4000000), ("base", 1000000)]

/-- Lookup `allocations[chainName] || 0` against `BASELINE_ALLOCATION`. -/
def baselineAllocationFor (chainName : String) : ℚ :=
  ((BASELINE_ALLOCATION_ENTRIES.find? (fun p => p.1 = chainName)).map Prod.snd).getD 0

/-- `predictAPYAfterFundMovement`: elasticity model
`newAPY = max(0, currentAPY + (fundMovement / totalLiquidity) * 100 *
elasticityFactor)`, returning `currentAPY` unchanged when
`totalLiquidity === 0`. -/
def predictAPYAfterFundMovement (currentAPY totalLiquidity fundMovement elasticityFactor : ℚ) : ℚ :=
  if totalLiquidity = 0 then currentAPY
  else
    let utilizationChange := fundMovement / totalLiquidity * 100
    let apyChange := utilizationChange * elasticityFactor
    max 0 (currentAPY + apyChange)

/-- The `moveAmount = 100000` ($100k) pairwise transfer step. -/
def moveAmount : ℚ := 100000

/-- The `maxIterations = 10` cap of the optimization loop. -/
def maxIterations : Nat := 10

/-- Body of the optimizer's inner double loop for one ordered pair `(i, j)`:
skip when an index is out of range, `i = j`, or the source chain holds less
than `moveAmount`; otherwise predict both APYs, compare
`potentialReturn > currentReturn + 1` and, on improvement, commit the move
in place.  Returns the updated array and whether a move was committed. -/
def tryMovePair (ms : List ChainMetrics) (i j : Nat) : List ChainMetrics × Bool :=
  match ms[i]?, ms[j]? with
  | some fromChain, some toChain =>
    if i = j ∨ fromChain.currentAllocation < moveAmount then (ms, false)
    else
      let fromNewAPY := predictAPYAfterFundMovement fromChain.currentAPY
        fromChain.totalLiquidity (-moveAmount) fromChain.elasticityFactor
      let toNewAPY := predictAPYAfterFundMovement toChain.currentAPY
        toChain.totalLiquidity moveAmount toChain.elasticityFactor
      let currentReturn := fromChain.currentAllocation * fromChain.currentAPY / 100 +
        toChain.currentAllocation * toChain.currentAPY / 100
      let newFromAllocation := fromChain.currentAllocation - moveAmount
      let newToAllocation := toChain.currentAllocation + moveAmount
      let potentialReturn := newFromAllocation * fromNewAPY / 100 +
        newToAllocation * toNewAPY / 100
      if currentReturn + 1 < potentialReturn then
        ((ms.set i { fromChain with currentAllocation := newFromAllocation, currentAPY := fromNewAPY }).set j
          { toChain with currentAllocation := newToAllocation, currentAPY := toNewAPY }, true)
      else (ms, false)
  | _, _ => (ms, false)

/-- Row-major list of the ordered index pairs `(i, j)` visited by the nested
`for` loops. -/
def pairIndices (n : Nat) : List (Nat × Nat) :=
  (List.range n).flatMap fun i => (List.range n).map fun j => (i, j)

/-- Threading of one pair through the sweep state: run `tryMovePair` on the
current array and accumulate the `improved` flag. -/
def optimizationStep (acc : List ChainMetrics × Bool) (p : Nat × Nat) :
    List ChainMetrics × Bool :=
  let r := tryMovePair acc.1 p.1 p.2
  (r.1, acc.2 || r.2)

/-- One outer iteration of the optimization loop: visit every ordered pair in
row-major order, committing improving moves immediately; the Bool is the
`improved` flag (true iff some pair committed a move). -/
def optimizationSweep (ms : List ChainMetrics) : List ChainMetrics × Bool :=
  (pairIndices ms.length).foldl optimizationStep (ms, false)

/-- The `while (improved && iterations < maxIterations)` loop, fuelled by the
remaining iteration budget; also returns the number of executed iterations
(the source's `iterations` counter). -/
def optimizationLoop : Nat → List ChainMetrics → List ChainMetrics × Nat
  | 0, ms => (ms, 0)
  | fuel + 1, ms =>
    let r := optimizationSweep ms
    if r.2 then
      let rest := optimizationLoop fuel r.1
      (rest.1, rest.2 + 1)
    else (r.1, 1)

/-- Construction of the optimizer's working set: each snapshot entry with a
`SUPPORTED_CHAINS` configuration becomes a `ChainMetrics` record seeded with
`allocations[chainName] || 0` from the baseline constant; unconfigured
chains are filtered out. -/
def initialChainMetrics (cfg : String → Option ℚ) (chainData : List ChainData) :
    List ChainMetrics :=
  chainData.filterMap fun chain =>
    (cfg chain.chainName).map fun elasticity =>
      { chainName := chain.chainName
        currentAPY := chain.supplyAPY
        currentUtilization := chain.utilizationRate
        totalLiquidity := chain.totalLiquidity
        elasticityFactor := elasticity
        currentAllocation := baselineAllocationFor chain.chainName }

/-- Sum of the deposit amounts of a day's fund flows. -/
def sumDeposits (fundFlows : List FundFlow) : ℚ :=
  (fundFlows.filter (fun f => f.flowType = FlowType.deposit)).foldl
    (fun s f => s + f.amount) 0

/-- Sum of the withdrawal amounts of a day's fund flows. -/
def sumWithdrawals (fundFlows : List FundFlow) : ℚ :=
  (fundFlows.filter (fun f => f.flowType = FlowType.withdrawal)).foldl
    (fun s f => s + f.amount) 0

/-- `calculateOptimalAllocation`: seed the working set, compute (and never
use) `availableFunds`, run the bounded pairwise-improvement loop, and
project the final working set to `{chainName, allocation, predictedAPY}`. -/
def calculateOptimalAllocation (cfg : String → Option ℚ) (chainData : List ChainData)
    (totalFunds : ℚ) (fundFlows : List FundFlow) : List AllocationResult :=
  let netInflows := sumDeposits fundFlows
  let netOutflows := sumWithdrawals fundFlows
  let availableFunds := totalFunds + netInflows - netOutflows
  let chainMetrics := initialChainMetrics cfg chainData
  let result := optimizationLoop maxIterations chainMetrics
  let _ := availableFunds
  result.1.map fun chain =>
    { chainName := chain.chainName
      allocation := chain.currentAllocation
      predictedAPY := chain.currentAPY }

/-- `calculateBaselinePerformance`: walk the `BASELINE_ALLOCATION` entries in
order, and for each one whose chain appears in the snapshot accumulate
`baselineAmount * (1 + supplyAPY/365/100)` and a per-chain entry. -/
def calculateBaselinePerformance (utilizationData : List ChainData) :
    ℚ × List ChainEntry :=
  BASELINE_ALLOCATION_ENTRIES.foldl
    (fun acc entry =>
      match utilizationData.find? (fun d => d.chainName = entry.1) with
      | some chainData =>
        let dailyReturn := chainData.supplyAPY / 365 / 100
        let chainValue := entry.2 * (1 + dailyReturn)
        (acc.1 + chainValue,
          acc.2 ++ [{ chainName := entry.1
                      allocation := entry.2
                      apy := chainData.supplyAPY
                      utilizationRatioVal := chainData.utilizationRate
                      totalSupply := chainData.totalLiquidity }])
      | none => acc)
    (0, [])

/-- `calculateOptimizedPerformanceWithFlows`: run the optimizer and value each
resulting chain at `allocation * (1 + predictedAPY/365/100)`; `baselineConfig`
and `previousDayTotal` are accepted and never used, exactly as in the
source. -/
def calculateOptimizedPerformanceWithFlows (cfg : String → Option ℚ)
    (utilizationData : List ChainData) (baselineConfig : List (String × ℚ))
    (fundFlows : List FundFlow) (previousDayTotal : Option ℚ)
    (totalFundSize : ℚ) : ℚ × List ChainEntry :=
  let optimalAllocation := calculateOptimalAllocation cfg utilizationData totalFundSize fundFlows
  let _ := baselineConfig
  let _ := previousDayTotal
  optimalAllocation.foldl
    (fun acc chainResult =>
      match utilizationData.find? (fun d => d.chainName = chainResult.chainName) with
      | some chainData =>
        let dailyReturn := chainResult.predictedAPY / 365 / 100
        let chainValue := chainResult.allocation * (1 + dailyReturn)
        (acc.1 + chainValue,
          acc.2 ++ [{ chainName := chainResult.chainName
                      allocation := chainResult.allocation
                      apy := chainResult.predictedAPY
                      utilizationRatioVal := chainData.utilizationRate
                      totalSupply := chainData.totalLiquidity }])
      | none => acc)
    (0, [])

/-- Total allocation held by a working set (the conserved quantity). -/
def sumAlloc (ms : List ChainMetrics) : ℚ :=
  (ms.map ChainMetrics.currentAllocation).sum

/-- Aggregate predicted daily dollar return of a working set,
`Σ allocation * APY / 100` (the quantity each committed move improves). -/
def aggReturn (ms : List ChainMetrics) : ℚ :=
  (ms.map (fun c => c.currentAllocation * c.currentAPY / 100)).sum

/-- The fund-flow multiplier of line
`const fundFlowMultiplier = (totalFundSize + netFlow) / totalFundSize;`,
embedded with its IEEE behaviour at a zero denominator made explicit: the
source has no zero guard, and dividing a finite double by `0` yields a
non-finite value (`NaN` when the numerator is `0`, `±Infinity` otherwise),
embedded as `none`. -/
def fundFlowMultiplier (totalFundSize netFlow : ℚ) : Option ℚ :=
  if totalFundSize = 0 then none
  else some ((totalFundSize + netFlow) / totalFundSize)

/-- Merge of the baseline and optimized per-chain entries into
`ChainPerformanceData` rows (only chains present in both lists). -/
def mergeChainPerformance (baselineChains optimizedChains : List ChainEntry) :
    List ChainPerformanceData :=
  baselineChains.foldl
    (fun acc baselineChain =>
      match optimizedChains.find? (fun c => c.chainName = baselineChain.chainName) with
      | some optimizedChain =>
        acc ++ [{ chainName := baselineChain.chainName
                  apyBaseline := baselineChain.apy
                  apyOptimized := optimizedChain.apy
                  allocationBaseline := baselineChain.allocation
                  allocationOptimized := optimizedChain.allocation
                  utilizationRatioVal := baselineChain.utilizationRatioVal
                  totalSupply := baselineChain.totalSupply }]
      | none => acc)
    []

/-- `calculateDailyPerformance`, as a pure function of its collaborator
inputs: oracle outcome, utilization snapshot, baseline configuration, fund
flows and previous-day total.  Returns `none` (the source's `return null`,
nothing persisted) when the snapshot is empty, else `some` of the record
handed to `storeDailyPerformance`.  This is the idealized-`ℚ` embedding:
division is the total rational division, faithful to the source whenever
`totalFundSize ≠ 0`; the unguarded zero case is captured by
`fundFlowMultiplier`. -/
def calculateDailyPerformance (cfg : String → Option ℚ) (oraclePoolValue : Option ℚ)
    (utilizationData : List ChainData) (baselineConfig : List (String × ℚ))
    (fundFlows : List FundFlow) (previousDayTotal : Option ℚ) :
    Option DailyPerformanceData :=
  let totalFundSize := getTotalFundSize oraclePoolValue
  if utilizationData.isEmpty then none
  else
    let baselinePerformance := calculateBaselinePerformance utilizationData
    let optimizedPerformance := calculateOptimizedPerformanceWithFlows cfg
      utilizationData baselineConfig fundFlows previousDayTotal totalFundSize
    let totalInflows := sumDeposits fundFlows
    let totalOutflows := sumWithdrawals fundFlows
    let netFlow := totalInflows - totalOutflows
    let multiplier := (totalFundSize + netFlow) / totalFundSize
    let adjustedBaselineValue := baselinePerformance.1 * multiplier
    let adjustedOptimizedValue := optimizedPerformance.1 * multiplier
    let differential := adjustedOptimizedValue - adjustedBaselineValue
    let differentialPercentage :=
      if 0 < adjustedBaselineValue then differential / adjustedBaselineValue * 100 else 0
    some
      { totalFundAllocationBaseline := adjustedBaselineValue
        totalFundAllocationOptimized := adjustedOptimizedValue
        differential := differential
        differentialPercentage := differentialPercentage
        totalInflows := totalInflows
        totalOutflows := totalOutflows
        netFlow := netFlow
        previousDayTotal := totalFundSize
        chains := mergeChainPerformance baselinePerformance.2 optimizedPerformance.2 }

/-- The `elasticityFactor` column of the repository's `SUPPORTED_CHAINS`
table in `config/chains` (0.1 = 1/10, 0.2 = 1/5, 0.15 = 3/20, 0.12 = 3/25,
0.18 = 9/50). -/
def SUPPORTED_CHAINS_ELASTICITY : String → Option ℚ := fun chainName =>
  if chainName = "ethereum" then some (1/10)
  else if chainName = "base" then some (1/5)
  else if chainName = "optimism" then some (3/20)
  else if chainName = "arbitrum" then some (3/25)
  else if chainName = "polygon" then some (9/50)
  else if chainName = "arbitrumSepolia" then some (3/25)
  else if chainName = "optimismSepolia" then some (3/20)
  else none

/-- The spec's scenario-3 snapshot: ethereum at APY 4 with $100M liquidity,
base at APY 6 with $20M liquidity. -/
def scenario3Data : List ChainData :=
  [⟨"ethereum", 4, 50, 100000000⟩, ⟨"base", 6, 50, 20000000⟩]

/-- Configuration supporting only `ethereum`, with elasticity `0.1`. -/
def singleEthConfig : String → Option ℚ :=
  fun n => if n = "ethereum" then some (1/10) else none

/-- Record produced by `calculateDailyPerformance SUPPORTED_CHAINS_ELASTICITY
(some 5000000) [⟨"ethereum", 0, 50, 1000000⟩] [] [] none`: one configured
chain, so the optimizer commits no move and the differential is zero. -/
def recC6 : DailyPerformanceData :=
  { totalFundAllocationBaseline := 4000000
    totalFundAllocationOptimized := 4000000
    differential := 0
    differentialPercentage := 0
    totalInflows := 0
    totalOutflows := 0
    netFlow := 0
    previousDayTotal := 5000000
    chains := [{ chainName := "ethereum", apyBaseline := 0, apyOptimized := 0,
                 allocationBaseline := 4000000, allocationOptimized := 4000000,
                 utilizationRatioVal := 50, totalSupply := 1000000 }] }

/-- Record produced by `calculateDailyPerformance SUPPORTED_CHAINS_ELASTICITY
(some 5000000) scenario3Data [] [] none`: the optimizer moves $1M from
ethereum to base, and with no flows the multiplier is 1. -/
def recC7 : DailyPerformanceData :=
  { totalFundAllocationBaseline := 365044000/73
    totalFundAllocationOptimized := 365051400/73
    differential := 7400/73
    differentialPercentage := 185/91261
    totalInflows := 0
    totalOutflows := 0
    netFlow := 0
    previousDayTotal := 5000000
    chains := [{ chainName := "ethereum", apyBaseline := 4, apyOptimized := 39/10,
                 allocationBaseline := 4000000, allocationOptimized := 3000000,
                 utilizationRatioVal := 50, totalSupply := 100000000 },
               { chainName := "base", apyBaseline := 6, apyOptimized := 7,
                 allocationBaseline := 1000000, allocationOptimized := 2000000,
                 utilizationRatioVal := 50, totalSupply := 20000000 }] }

/-- Record produced by `calculateDailyPerformance SUPPORTED_CHAINS_ELASTICITY
(some 7000000) [⟨"ethereum", 365/2, 50, 1000000⟩] [] [] (some 123)`. -/
def recC10 : DailyPerformanceData :=
  { totalFundAllocationBaseline := 4020000
    totalFundAllocationOptimized := 4020000
    differential := 0
    differentialPercentage := 0
    totalInflows := 0
    totalOutflows := 0
    netFlow := 0
    previousDayTotal := 7000000
    chains := [{ chainName := "ethereum", apyBaseline := 365/2, apyOptimized := 365/2,
                 allocationBaseline := 4000000, allocationOptimized := 4000000,
                 utilizationRatioVal := 50, totalSupply := 1000000 }] }

/-- Sum of a mapped list after updating two distinct positions. -/
theorem sum_map_set_set {α : Type} (f : α → ℚ) (l : List α) (i j : Nat) (x y a b : α)
    (hij : i ≠ j) (hi : l[i]? = some x) (hj : l[j]? = some y) :
    (((l.set i a).set j b).map f).sum = (l.map f).sum - f x - f y + f a + f b := by
  obtain ⟨hilt, hieq⟩ := List.getElem?_eq_some.mp hi
  obtain ⟨hjlt, hjeq⟩ := List.getElem?_eq_some.mp hj
  rw [List.map_set, List.map_set, List.sum_set', List.sum_set']
  rw [dif_pos (show j < ((l.map f).set i (f a)).length by simpa using hjlt)]
  rw [dif_pos (show i < (l.map f).length by simpa using hilt)]
  rw [List.getElem_set_ne (by omega), List.getElem_map, List.getElem_map, hieq, hjeq]
  ring

theorem tryMovePair_spec (ms : List ChainMetrics) (i j : Nat) :
    sumAlloc (tryMovePair ms i j).1 = sumAlloc ms
    ∧ aggReturn ms ≤ aggReturn (tryMovePair ms i j).1
    ∧ ((tryMovePair ms i j).2 = false → (tryMovePair ms i j).1 = ms) := by
  cases hi : ms[i]? with
  | none =>
    refine ⟨?_, ?_, ?_⟩ <;> simp [tryMovePair, hi]
  | some fromChain =>
    cases hj : ms[j]? with
    | none =>
      refine ⟨?_, ?_, ?_⟩ <;> simp [tryMovePair, hi, hj]
    | some toChain =>
      simp only [tryMovePair, hi, hj]
      split_ifs with hskip himp
      · exact ⟨rfl, le_refl _, fun _ => rfl⟩
      · push_neg at hskip
        refine ⟨?_, ?_, ?_⟩
        · show sumAlloc ((ms.set i _).set j _) = sumAlloc ms
          unfold sumAlloc
          rw [sum_map_set_set ChainMetrics.currentAllocation ms i j fromChain toChain _ _ hskip.1 hi hj]
          dsimp only
          ring
        · show aggReturn ms ≤ aggReturn ((ms.set i _).set j _)
          unfold aggReturn
          rw [sum_map_set_set (fun c => c.currentAllocation * c.currentAPY / 100) ms i j
            fromChain toChain _ _ hskip.1 hi hj]
          dsimp only
          linarith
        · intro hfalse
          simp at hfalse
      · exact ⟨rfl, le_refl _, fun _ => rfl⟩

/-- Combined invariant of one pairwise-move attempt: the total allocation is
preserved, the aggregate return never decreases, and a rejected move leaves
the working set untouched. -/

theorem foldl_optimizationStep_spec (ps : List (Nat × Nat)) :
    ∀ (ms : List ChainMetrics) (b : Bool),
      sumAlloc (ps.foldl optimizationStep (ms, b)).1 = sumAlloc ms
      ∧ aggReturn ms ≤ aggReturn (ps.foldl optimizationStep (ms, b)).1
      ∧ ((ps.foldl optimizationStep (ms, b)).2 = false →
          (ps.foldl optimizationStep (ms, b)).1 = ms ∧ b = false) := by
  induction ps with
  | nil => exact fun ms b => ⟨rfl, le_refl _, fun h => ⟨rfl, h⟩⟩
  | cons p ps ih =>
    intro ms b
    obtain ⟨h1, h2, h3⟩ := tryMovePair_spec ms p.1 p.2
    obtain ⟨g1, g2, g3⟩ := ih (tryMovePair ms p.1 p.2).1 (b || (tryMovePair ms p.1 p.2).2)
    have hstep : optimizationStep (ms, b) p
        = ((tryMovePair ms p.1 p.2).1, b || (tryMovePair ms p.1 p.2).2) := rfl
    simp only [List.foldl_cons, hstep]
    refine ⟨g1.trans h1, h2.trans g2, fun hf => ?_⟩
    obtain ⟨hout, hflag⟩ := g3 hf
    have hb : b = false ∧ (tryMovePair ms p.1 p.2).2 = false := by
      constructor
      · cases b with
        | false => rfl
        | true => simp at hflag
      · cases hmv : (tryMovePair ms p.1 p.2).2 with
        | false => rfl
        | true => rw [hmv] at hflag; simp at hflag
    exact ⟨by rw [hout, h3 hb.2], hb.1⟩

theorem optimizationLoop_spec : ∀ (fuel : Nat) (ms : List ChainMetrics),
    sumAlloc (optimizationLoop fuel ms).1 = sumAlloc ms
    ∧ aggReturn ms ≤ aggReturn (optimizationLoop fuel ms).1
    ∧ (optimizationLoop fuel ms).2 ≤ fuel
    ∧ ((optimizationSweep ms).2 = false → (optimizationLoop fuel ms).1 = ms) := by
  intro fuel
  induction fuel with
  | zero => exact fun ms => ⟨rfl, le_refl _, le_refl _, fun _ => rfl⟩
  | succ fuel ih =>
    intro ms
    obtain ⟨s1, s2, s3⟩ := foldl_optimizationStep_spec (pairIndices ms.length) ms false
    cases hflag : (optimizationSweep ms).2 with
    | true =>
      have hunf : optimizationLoop (fuel + 1) ms
          = (if (optimizationSweep ms).2 then
              ((optimizationLoop fuel (optimizationSweep ms).1).1,
               (optimizationLoop fuel (optimizationSweep ms).1).2 + 1)
             else ((optimizationSweep ms).1, 1)) := rfl
      have hloop : optimizationLoop (fuel + 1) ms
          = ((optimizationLoop fuel (optimizationSweep ms).1).1,
             (optimizationLoop fuel (optimizationSweep ms).1).2 + 1) := by
        rw [hunf, hflag]
        simp
      obtain ⟨i1, i2, i3, _⟩ := ih (optimizationSweep ms).1
      rw [hloop]
      exact ⟨i1.trans s1, s2.trans i2, by omega, fun hc => Bool.noConfusion hc⟩
    | false =>
      have hunf : optimizationLoop (fuel + 1) ms
          = (if (optimizationSweep ms).2 then
              ((optimizationLoop fuel (optimizationSweep ms).1).1,
               (optimizationLoop fuel (optimizationSweep ms).1).2 + 1)
             else ((optimizationSweep ms).1, 1)) := rfl
      have hloop : optimizationLoop (fuel + 1) ms = ((optimizationSweep ms).1, 1) := by
        rw [hunf, hflag]
        simp
      have hms : (optimizationSweep ms).1 = ms := (s3 hflag).1
      rw [hloop, hms]
      exact ⟨rfl, le_refl _, by omega, fun _ => rfl⟩
/-- C1 (amended): the fund-flow multiplier equals
`(totalFundSize + netFlow) / totalFundSize` whenever `totalFundSize` is
non-zero; the division is NOT guarded, so at `totalFundSize = 0` the code
produces a non-finite IEEE value (`NaN` or `±Infinity`), not `1`. -/
theorem c1_fundFlowMultiplier_unguarded (totalFundSize netFlow : ℚ) :
    (totalFundSize ≠ 0 →
      fundFlowMultiplier totalFundSize netFlow = some ((totalFundSize + netFlow) / totalFundSize))
    ∧ (totalFundSize = 0 → fundFlowMultiplier totalFundSize netFlow = none) := by
  constructor <;> intro h <;> simp [fundFlowMultiplier, h]

/-- C1 counterexample: at `totalFundSize = 0` the multiplier is a non-finite
value, not the `1` claimed by the spec's guard. -/
theorem c1_counterexample :
    fundFlowMultiplier 0 0 = none ∧ fundFlowMultiplier 0 0 ≠ some 1 := by
  constructor <;> simp [fundFlowMultiplier]

/-- C1 witness: at `totalFundSize = 5000000`, `netFlow = 100` the hypothesis
holds and the multiplier is the stated quotient. -/
theorem c1_witness :
    (5000000 : ℚ) ≠ 0
    ∧ fundFlowMultiplier 5000000 100 = some (((5000000 : ℚ) + 100) / 5000000) :=
  ⟨by norm_num, (c1_fundFlowMultiplier_unguarded 5000000 100).1 (by norm_num)⟩

/-- C2 (amended): the predictor returns `currentAPY` unchanged when
`totalLiquidity = 0`, otherwise returns
`max 0 (currentAPY + fundMovement / totalLiquidity * 100 * elasticityFactor)`;
its output is non-negative whenever `totalLiquidity ≠ 0` (for any fund
movement, however negative), and also whenever `currentAPY ≥ 0` —
but not for negative `currentAPY` with zero liquidity. -/
theorem c2_predictAPY_clamped (currentAPY totalLiquidity fundMovement elasticityFactor : ℚ) :
    (totalLiquidity = 0 →
      predictAPYAfterFundMovement currentAPY totalLiquidity fundMovement elasticityFactor = currentAPY)
    ∧ (totalLiquidity ≠ 0 →
      predictAPYAfterFundMovement currentAPY totalLiquidity fundMovement elasticityFactor
        = max 0 (currentAPY + fundMovement / totalLiquidity * 100 * elasticityFactor))
    ∧ (totalLiquidity ≠ 0 →
      0 ≤ predictAPYAfterFundMovement currentAPY totalLiquidity fundMovement elasticityFactor)
    ∧ (0 ≤ currentAPY →
      0 ≤ predictAPYAfterFundMovement currentAPY totalLiquidity fundMovement elasticityFactor) := by
  by_cases h : totalLiquidity = 0
  · refine ⟨fun _ => by simp [predictAPYAfterFundMovement, h], fun hc => absurd h hc,
      fun hc => absurd h hc, fun ha => ?_⟩
    simpa [predictAPYAfterFundMovement, h] using ha
  · refine ⟨fun hc => absurd hc h, fun _ => by simp [predictAPYAfterFundMovement, h],
      fun _ => ?_, fun _ => ?_⟩
    · simp [predictAPYAfterFundMovement, h, le_max_left]
    · simp [predictAPYAfterFundMovement, h, le_max_left]

/-- C2 counterexample: with zero liquidity and a negative current APY the
predictor's output is negative, refuting non-negativity for every input. -/
theorem c2_counterexample :
    predictAPYAfterFundMovement (-1) 0 0 0 = -1
    ∧ predictAPYAfterFundMovement (-1) 0 0 0 < 0 := by
  constructor <;> norm_num [predictAPYAfterFundMovement]

/-- C2 witness: the spec's worked scenario (APY 6.5, liquidity $10M,
movement +$1M, elasticity 0.1) has non-zero liquidity and non-negative
output. -/
theorem c2_witness :
    (10000000 : ℚ) ≠ 0
    ∧ 0 ≤ predictAPYAfterFundMovement (13/2) 10000000 1000000 (1/10) :=
  ⟨by norm_num, (c2_predictAPY_clamped (13/2) 10000000 1000000 (1/10)).2.2.1 (by norm_num)⟩

/-- C8 (confirmed): an empty chain-metrics snapshot makes
`calculateDailyPerformance` return `none` (the source's `return null`):
nothing is handed to the persistence layer and no zero-differential record
is produced. -/
theorem c8_empty_snapshot_returns_none (cfg : String → Option ℚ)
    (oraclePoolValue : Option ℚ) (baselineConfig : List (String × ℚ))
    (fundFlows : List FundFlow) (previousDayTotal : Option ℚ) :
    calculateDailyPerformance cfg oraclePoolValue [] baselineConfig fundFlows previousDayTotal
      = none := rfl

/-- C9 (confirmed): the optimizer's result is completely independent of the
`fundFlows` argument — the flow-adjusted `availableFunds` is computed and
then never used, the working allocations being seeded from the fixed
baseline constant. -/
theorem c9_fundFlows_noninterference (cfg : String → Option ℚ)
    (chainData : List ChainData) (totalFunds : ℚ)
    (fundFlows1 fundFlows2 : List FundFlow) :
    calculateOptimalAllocation cfg chainData totalFunds fundFlows1
      = calculateOptimalAllocation cfg chainData totalFunds fundFlows2 := rfl
/-- C3 (confirmed): every optimizer run conserves the total allocation — the
sum of per-chain allocations in the result equals the sum over the initial
working set (exact equality in `ℚ`, hence within any tolerance); each
committed move debits the source and credits the destination by the same
`moveAmount`. -/
theorem c3_allocation_conservation (cfg : String → Option ℚ)
    (chainData : List ChainData) (totalFunds : ℚ) (fundFlows : List FundFlow) :
    ((calculateOptimalAllocation cfg chainData totalFunds fundFlows).map
        AllocationResult.allocation).sum
      = ((initialChainMetrics cfg chainData).map ChainMetrics.currentAllocation).sum := by
  have h := (optimizationLoop_spec maxIterations (initialChainMetrics cfg chainData)).1
  have e : ((calculateOptimalAllocation cfg chainData totalFunds fundFlows).map
        AllocationResult.allocation)
      = ((optimizationLoop maxIterations (initialChainMetrics cfg chainData)).1.map
          ChainMetrics.currentAllocation) := by
    simp only [calculateOptimalAllocation, List.map_map]
    rfl
  rw [e]
  exact h

/-- C4 (confirmed): the aggregate predicted daily dollar return
`Σ allocation * APY / 100` of the optimizer's result is at least the
aggregate return of the initial working set, with equality when the first
sweep finds no move clearing the $1 improvement threshold. -/
theorem c4_monotonic_improvement (cfg : String → Option ℚ)
    (chainData : List ChainData) (totalFunds : ℚ) (fundFlows : List FundFlow) :
    ((initialChainMetrics cfg chainData).map
        (fun c => c.currentAllocation * c.currentAPY / 100)).sum
      ≤ ((calculateOptimalAllocation cfg chainData totalFunds fundFlows).map
          (fun r => r.allocation * r.predictedAPY / 100)).sum
    ∧ ((optimizationSweep (initialChainMetrics cfg chainData)).2 = false →
        ((calculateOptimalAllocation cfg chainData totalFunds fundFlows).map
            (fun r => r.allocation * r.predictedAPY / 100)).sum
          = ((initialChainMetrics cfg chainData).map
              (fun c => c.currentAllocation * c.currentAPY / 100)).sum) := by
  obtain ⟨-, hagg, -, hstall⟩ :=
    optimizationLoop_spec maxIterations (initialChainMetrics cfg chainData)
  have e : ((calculateOptimalAllocation cfg chainData totalFunds fundFlows).map
        (fun r => r.allocation * r.predictedAPY / 100))
      = ((optimizationLoop maxIterations (initialChainMetrics cfg chainData)).1.map
          (fun c => c.currentAllocation * c.currentAPY / 100)) := by
    simp only [calculateOptimalAllocation, List.map_map]
    rfl
  constructor
  · rw [e]
    exact hagg
  · intro hf
    rw [e, hstall hf]

/-- C4 witness: with a single supported chain no pair move is possible, the
first sweep reports no improvement, and the aggregate return is unchanged. -/
theorem c4_monotonic_improvement_witness :
    (optimizationSweep (initialChainMetrics singleEthConfig
        [⟨"ethereum", 5, 50, 1000000⟩])).2 = false
    ∧ ((calculateOptimalAllocation singleEthConfig [⟨"ethereum", 5, 50, 1000000⟩] 5000000 []).map
          (fun r => r.allocation * r.predictedAPY / 100)).sum
        = ((initialChainMetrics singleEthConfig [⟨"ethereum", 5, 50, 1000000⟩]).map
            (fun c => c.currentAllocation * c.currentAPY / 100)).sum :=
  ⟨by decide,
   (c4_monotonic_improvement singleEthConfig [⟨"ethereum", 5, 50, 1000000⟩] 5000000 []).2
     (by decide)⟩

/-- C5 (confirmed): the optimizer is a total function whose outer loop
executes at most `maxIterations = 10` sweeps for every input, and its result
is the projection of the loop's final working set. -/
theorem c5_bounded_iterations (cfg : String → Option ℚ)
    (chainData : List ChainData) (totalFunds : ℚ) (fundFlows : List FundFlow) :
    (optimizationLoop maxIterations (initialChainMetrics cfg chainData)).2 ≤ 10
    ∧ calculateOptimalAllocation cfg chainData totalFunds fundFlows
      = ((optimizationLoop maxIterations (initialChainMetrics cfg chainData)).1.map
          (fun chain =>
            { chainName := chain.chainName
              allocation := chain.currentAllocation
              predictedAPY := chain.currentAPY })) :=
  ⟨(optimizationLoop_spec maxIterations (initialChainMetrics cfg chainData)).2.2.1, rfl⟩
theorem sign_of_div_mul_100 (d b : ℚ) (hb : 0 < b) :
    (0 < d ↔ 0 < d / b * 100) ∧ (d < 0 ↔ d / b * 100 < 0) ∧ (d = 0 ↔ d / b * 100 = 0) := by
  have h1 : d / b * 100 = d * (100 / b) := by ring
  have h2 : (0:ℚ) < 100 / b := by positivity
  rw [h1]
  refine ⟨⟨fun h => mul_pos h h2, fun h => ?_⟩,
    ⟨fun h => mul_neg_of_neg_of_pos h h2, fun h => ?_⟩,
    ⟨fun h => by rw [h]; ring, fun h => ?_⟩⟩
  · nlinarith
  · nlinarith
  · rcases mul_eq_zero.mp h with h | h
    · exact h
    · exact absurd h (by positivity)

theorem evalRecC6 :
    calculateDailyPerformance SUPPORTED_CHAINS_ELASTICITY (some 5000000)
      [⟨"ethereum", 0, 50, 1000000⟩] [] [] none = some recC6 := by
  have h1 : (decide ("ethereum" = "base")) = false := by decide
  have h2 : (decide ("ethereum" = "ethereum")) = true := by decide
  have e1 : "ethereum" ≠ "base" := by decide
  have hp : pairIndices 1 = [(0, 0)] := by rfl
  norm_num [calculateDailyPerformance, calculateBaselinePerformance,
    calculateOptimizedPerformanceWithFlows, calculateOptimalAllocation, initialChainMetrics,
    sumDeposits, sumWithdrawals, mergeChainPerformance, getTotalFundSize, FALLBACK_FUND_SIZE,
    BASELINE_ALLOCATION_ENTRIES, baselineAllocationFor, optimizationLoop, optimizationSweep,
    optimizationStep, tryMovePair, predictAPYAfterFundMovement, moveAmount, max_def,
    maxIterations, SUPPORTED_CHAINS_ELASTICITY, recC6, List.find?, List.filterMap_cons,
    h1, h2, e1, hp]

theorem evalRecC7 :
    calculateDailyPerformance SUPPORTED_CHAINS_ELASTICITY (some 5000000) scenario3Data
      [] [] none = some recC7 := by
  have h1 : (decide ("ethereum" = "base")) = false := by decide
  have h2 : (decide ("ethereum" = "ethereum")) = true := by decide
  have h3 : (decide ("base" = "ethereum")) = false := by decide
  have h4 : (decide ("base" = "base")) = true := by decide
  have e1 : "ethereum" ≠ "base" := by decide
  have e2 : "base" ≠ "ethereum" := by decide
  have hp : pairIndices 2 = [(0, 0), (0, 1), (1, 0), (1, 1)] := by rfl
  norm_num [calculateDailyPerformance, calculateBaselinePerformance,
    calculateOptimizedPerformanceWithFlows, calculateOptimalAllocation, initialChainMetrics,
    sumDeposits, sumWithdrawals, mergeChainPerformance, getTotalFundSize, FALLBACK_FUND_SIZE,
    BASELINE_ALLOCATION_ENTRIES, baselineAllocationFor, optimizationLoop, optimizationSweep,
    optimizationStep, tryMovePair, predictAPYAfterFundMovement, moveAmount, max_def,
    maxIterations, SUPPORTED_CHAINS_ELASTICITY, scenario3Data, recC7, List.find?,
    List.filterMap_cons, h1, h2, h3, h4, e1, e2, hp]

theorem evalRecC10 :
    calculateDailyPerformance SUPPORTED_CHAINS_ELASTICITY (some 7000000)
      [⟨"ethereum", 365/2, 50, 1000000⟩] [] [] (some 123) = some recC10 := by
  have h1 : (decide ("ethereum" = "base")) = false := by decide
  have h2 : (decide ("ethereum" = "ethereum")) = true := by decide
  have e1 : "ethereum" ≠ "base" := by decide
  have hp : pairIndices 1 = [(0, 0)] := by rfl
  norm_num [calculateDailyPerformance, calculateBaselinePerformance,
    calculateOptimizedPerformanceWithFlows, calculateOptimalAllocation, initialChainMetrics,
    sumDeposits, sumWithdrawals, mergeChainPerformance, getTotalFundSize, FALLBACK_FUND_SIZE,
    BASELINE_ALLOCATION_ENTRIES, baselineAllocationFor, optimizationLoop, optimizationSweep,
    optimizationStep, tryMovePair, predictAPYAfterFundMovement, moveAmount, max_def,
    maxIterations, SUPPORTED_CHAINS_ELASTICITY, recC10, List.find?, List.filterMap_cons,
    h1, h2, e1, hp]

/-- C6 (amended): in every record computed with a non-zero total fund size,
`differential = adjustedOptimized − adjustedBaseline` and
`differentialPercentage = differential / adjustedBaseline × 100` when the
adjusted baseline is strictly positive, and `0` otherwise — in particular
`0`, not the quotient, for negative non-zero baselines. -/
theorem c6_differential_formula (cfg : String → Option ℚ) (oraclePoolValue : Option ℚ)
    (utilizationData : List ChainData) (baselineConfig : List (String × ℚ))
    (fundFlows : List FundFlow) (previousDayTotal : Option ℚ)
    (rec : DailyPerformanceData)
    (_hsize : getTotalFundSize oraclePoolValue ≠ 0)
    (hrec : calculateDailyPerformance cfg oraclePoolValue utilizationData baselineConfig
      fundFlows previousDayTotal = some rec) :
    rec.differential = rec.totalFundAllocationOptimized - rec.totalFundAllocationBaseline
    ∧ rec.differentialPercentage =
        (if 0 < rec.totalFundAllocationBaseline
         then rec.differential / rec.totalFundAllocationBaseline * 100 else 0) := by
  simp only [calculateDailyPerformance] at hrec
  split at hrec
  · exact absurd hrec (by simp)
  · rw [Option.some.injEq] at hrec
    subst hrec
    exact ⟨rfl, rfl⟩

/-- C6 counterexample: with the repository's chain configuration, the
scenario-3 snapshot plus a $10M withdrawal against a $5M fund makes the
multiplier `-1`, so the adjusted baseline is `-365044000/73` (negative and
non-zero) while the stored percentage is `0`, not the claimed
`differential / adjustedBaseline × 100`. -/
theorem c6_counterexample :
    (calculateDailyPerformance SUPPORTED_CHAINS_ELASTICITY (some 5000000) scenario3Data
        [] [⟨"ethereum", FlowType.withdrawal, 10000000⟩] none).map
      (fun r => (r.totalFundAllocationBaseline, r.differential, r.differentialPercentage))
      = some (-(365044000/73), -(7400/73), 0)
    ∧ ((-(365044000/73) : ℚ) ≠ 0)
    ∧ ((0 : ℚ) ≠ (-(7400/73) : ℚ) / (-(365044000/73) : ℚ) * 100) := by
  have h1 : (decide ("ethereum" = "base")) = false := by decide
  have h2 : (decide ("ethereum" = "ethereum")) = true := by decide
  have h3 : (decide ("base" = "ethereum")) = false := by decide
  have h4 : (decide ("base" = "base")) = true := by decide
  have h5 : (decide (FlowType.withdrawal = FlowType.deposit)) = false := by decide
  have h6 : (decide (FlowType.withdrawal = FlowType.withdrawal)) = true := by decide
  have e1 : "ethereum" ≠ "base" := by decide
  have e2 : "base" ≠ "ethereum" := by decide
  have hp : pairIndices 2 = [(0, 0), (0, 1), (1, 0), (1, 1)] := by rfl
  refine ⟨?_, by norm_num, by norm_num⟩
  norm_num [calculateDailyPerformance, calculateBaselinePerformance,
    calculateOptimizedPerformanceWithFlows, calculateOptimalAllocation, initialChainMetrics,
    sumDeposits, sumWithdrawals, mergeChainPerformance, getTotalFundSize, FALLBACK_FUND_SIZE,
    BASELINE_ALLOCATION_ENTRIES, baselineAllocationFor, optimizationLoop, optimizationSweep,
    optimizationStep, tryMovePair, predictAPYAfterFundMovement, moveAmount, max_def,
    maxIterations, SUPPORTED_CHAINS_ELASTICITY, scenario3Data, List.find?, List.filter,
    List.filterMap_cons, h1, h2, h3, h4, h5, h6, e1, e2, hp]

/-- C6 witness: a concrete run with the repository's configuration, a $5M
oracle value, one chain and no flows satisfies both hypotheses and both
field equations. -/
theorem c6_differential_formula_witness :
    getTotalFundSize (some 5000000) ≠ 0
    ∧ calculateDailyPerformance SUPPORTED_CHAINS_ELASTICITY (some 5000000)
        [⟨"ethereum", 0, 50, 1000000⟩] [] [] none = some recC6
    ∧ (recC6.differential = recC6.totalFundAllocationOptimized - recC6.totalFundAllocationBaseline
       ∧ recC6.differentialPercentage =
          (if 0 < recC6.totalFundAllocationBaseline
           then recC6.differential / recC6.totalFundAllocationBaseline * 100 else 0)) :=
  ⟨by decide, evalRecC6,
   c6_differential_formula SUPPORTED_CHAINS_ELASTICITY (some 5000000)
     [⟨"ethereum", 0, 50, 1000000⟩] [] [] none recC6 (by decide) evalRecC6⟩

/-- C7 (amended): sign consistency between `differentialPercentage` and
`differential` holds for every computed record whose adjusted baseline is
strictly positive (not merely non-zero: for negative baselines the stored
percentage is `0` regardless of the differential). -/
theorem c7_sign_consistency (cfg : String → Option ℚ) (oraclePoolValue : Option ℚ)
    (utilizationData : List ChainData) (baselineConfig : List (String × ℚ))
    (fundFlows : List FundFlow) (previousDayTotal : Option ℚ)
    (rec : DailyPerformanceData)
    (hrec : calculateDailyPerformance cfg oraclePoolValue utilizationData baselineConfig
      fundFlows previousDayTotal = some rec)
    (hpos : 0 < rec.totalFundAllocationBaseline) :
    (0 < rec.differential ↔ 0 < rec.differentialPercentage)
    ∧ (rec.differential < 0 ↔ rec.differentialPercentage < 0)
    ∧ (rec.differential = 0 ↔ rec.differentialPercentage = 0) := by
  simp only [calculateDailyPerformance] at hrec
  split at hrec
  · exact absurd hrec (by simp)
  · rw [Option.some.injEq] at hrec
    subst hrec
    simp only at hpos ⊢
    rw [if_pos hpos]
    exact sign_of_div_mul_100 _ _ hpos

/-- C7 counterexample: with the repository's chain configuration, the
scenario-3 snapshot plus a $20M withdrawal against a $5M fund yields a record
with non-zero (negative) adjusted baseline whose differential `-22200/73` is
strictly negative while the stored percentage is `0` — the signs disagree,
refuting sign consistency for all non-zero baselines. -/
theorem c7_counterexample :
    (calculateDailyPerformance SUPPORTED_CHAINS_ELASTICITY (some 5000000) scenario3Data
        [] [⟨"ethereum", FlowType.withdrawal, 20000000⟩] none).map
      (fun r => (r.totalFundAllocationBaseline, r.differential, r.differentialPercentage))
      = some (-(1095132000/73), -(22200/73), 0)
    ∧ ((-(1095132000/73) : ℚ) ≠ 0)
    ∧ ((-(22200/73) : ℚ) < 0)
    ∧ ¬ ((0 : ℚ) < 0) := by
  have h1 : (decide ("ethereum" = "base")) = false := by decide
  have h2 : (decide ("ethereum" = "ethereum")) = true := by decide
  have h3 : (decide ("base" = "ethereum")) = false := by decide
  have h4 : (decide ("base" = "base")) = true := by decide
  have h5 : (decide (FlowType.withdrawal = FlowType.deposit)) = false := by decide
  have h6 : (decide (FlowType.withdrawal = FlowType.withdrawal)) = true := by decide
  have e1 : "ethereum" ≠ "base" := by decide
  have e2 : "base" ≠ "ethereum" := by decide
  have hp : pairIndices 2 = [(0, 0), (0, 1), (1, 0), (1, 1)] := by rfl
  refine ⟨?_, by norm_num, by norm_num, by norm_num⟩
  norm_num [calculateDailyPerformance, calculateBaselinePerformance,
    calculateOptimizedPerformanceWithFlows, calculateOptimalAllocation, initialChainMetrics,
    sumDeposits, sumWithdrawals, mergeChainPerformance, getTotalFundSize, FALLBACK_FUND_SIZE,
    BASELINE_ALLOCATION_ENTRIES, baselineAllocationFor, optimizationLoop, optimizationSweep,
    optimizationStep, tryMovePair, predictAPYAfterFundMovement, moveAmount, max_def,
    maxIterations, SUPPORTED_CHAINS_ELASTICITY, scenario3Data, List.find?, List.filter,
    List.filterMap_cons, h1, h2, h3, h4, h5, h6, e1, e2, hp]

/-- C7 witness: the scenario-3 run with the repository's configuration and no
flows has positive adjusted baseline, and its positive differential `7400/73`
and positive percentage `185/91261` agree in sign. -/
theorem c7_sign_consistency_witness :
    calculateDailyPerformance SUPPORTED_CHAINS_ELASTICITY (some 5000000) scenario3Data
        [] [] none = some recC7
    ∧ (0 : ℚ) < recC7.totalFundAllocationBaseline
    ∧ ((0 < recC7.differential ↔ 0 < recC7.differentialPercentage)
       ∧ (recC7.differential < 0 ↔ recC7.differentialPercentage < 0)
       ∧ (recC7.differential = 0 ↔ recC7.differentialPercentage = 0)) :=
  ⟨evalRecC7, by norm_num [recC7],
   c7_sign_consistency SUPPORTED_CHAINS_ELASTICITY (some 5000000) scenario3Data
     [] [] none recC7 evalRecC7 (by norm_num [recC7])⟩

/-- C10 (confirmed): the record's `previousDayTotal` field stores the current
day's oracle-reported fund size (the fallback when the oracle fails), and the
fetched previous-day total influences neither the optimized-scenario
computation nor any part of the output. -/
theorem c10_previousDayTotal_unused (cfg : String → Option ℚ) (oraclePoolValue : Option ℚ)
    (utilizationData : List ChainData) (baselineConfig : List (String × ℚ))
    (fundFlows : List FundFlow) (previousDayTotal1 previousDayTotal2 : Option ℚ) :
    calculateDailyPerformance cfg oraclePoolValue utilizationData baselineConfig
        fundFlows previousDayTotal1
      = calculateDailyPerformance cfg oraclePoolValue utilizationData baselineConfig
          fundFlows previousDayTotal2
    ∧ (∀ totalFundSize : ℚ,
        calculateOptimizedPerformanceWithFlows cfg utilizationData baselineConfig
            fundFlows previousDayTotal1 totalFundSize
          = calculateOptimizedPerformanceWithFlows cfg utilizationData baselineConfig
              fundFlows previousDayTotal2 totalFundSize)
    ∧ (∀ rec : DailyPerformanceData,
        calculateDailyPerformance cfg oraclePoolValue utilizationData baselineConfig
            fundFlows previousDayTotal1 = some rec →
          rec.previousDayTotal = getTotalFundSize oraclePoolValue) := by
  refine ⟨rfl, fun _ => rfl, fun rec hrec => ?_⟩
  simp only [calculateDailyPerformance] at hrec
  split at hrec
  · exact absurd hrec (by simp)
  · rw [Option.some.injEq] at hrec
    subst hrec
    rfl

/-- C10 witness: a concrete run in which the stored `previousDayTotal` equals
the oracle value `7000000`, not the fetched previous-day total `123`. -/
theorem c10_previousDayTotal_unused_witness :
    calculateDailyPerformance SUPPORTED_CHAINS_ELASTICITY (some 7000000)
        [⟨"ethereum", 365/2, 50, 1000000⟩] [] [] (some 123) = some recC10
    ∧ recC10.previousDayTotal = getTotalFundSize (some 7000000) :=
  ⟨evalRecC10,
   (c10_previousDayTotal_unused SUPPORTED_CHAINS_ELASTICITY (some 7000000)
       [⟨"ethereum", 365/2, 50, 1000000⟩] [] [] (some 123) (some 456)).2.2
     recC10 evalRecC10⟩
